import Mathlib

/-!
Verification of the document-totals engine and permission table of the
Stock_frontend repository. Monetary values are embedded as rationals,
giving the exact arithmetic the numbers denote; JavaScript Math.round is
embedded by its specified semantics (nearest integer, ties toward
positive infinity).
-/

namespace StockFrontend

/-- Tax codes selectable on invoice and purchase form items (the TypeScript
union type A | B | None). -/
inductive TaxCode where
  | A
  | B
  | None
deriving DecidableEq, Repr

/-- One entry of the TAX_CODES constant table. -/
structure TaxCodeEntry where
  value : TaxCode
  label : String
  rate : ℚ
deriving DecidableEq, Repr

/-- The TAX_CODES table of InvoicesPage and PurchasesPage: code A at rate 0,
code B at rate 18. -/
def TAX_CODES : List TaxCodeEntry :=
  [⟨TaxCode.A, "A (0%)", 0⟩, ⟨TaxCode.B, "B (18%)", 18⟩]

/-- JavaScript Math.round: the integer nearest to x, with halves rounded
toward positive infinity. -/
def mathRound (x : ℚ) : ℤ := ⌊x + 1 / 2⌋

/-- Rounding a rational to two decimal places by applying Math.round to the
value scaled by 100, as the pages compute roundedAmount. -/
def roundHalfUpTo2 (q : ℚ) : ℚ := (mathRound (q * 100) : ℚ) / 100

/-- Modelled from the spec: rounding to two decimal places with halves
rounded away from zero, the policy named by the specification for
roundedTotal. Stated here only for comparison with the code. -/
def roundHalfAwayFromZeroTo2 (q : ℚ) : ℚ :=
  if 0 ≤ q then (⌊q * 100 + 1 / 2⌋ : ℚ) / 100
  else -((⌊-(q * 100) + 1 / 2⌋ : ℚ) / 100)

/-- Modelled from the spec: the error taxonomy of the specification
(InvalidLineItem and the related validation errors). No error type of this
kind exists anywhere in the source. -/
inductive DocError where
  | InvalidLineItem
  | InconsistentTaxCode
  | EmptyRequiredField
deriving DecidableEq, Repr

/-- Running accumulator of the six mutable locals of calculateTotals in
InvoicesPage and PurchasesPage. -/
structure Acc where
  totalAEx : ℚ
  totalB18 : ℚ
  totalTaxA : ℚ
  totalTaxB : ℚ
  subtotal : ℚ
  totalDiscount : ℚ
deriving DecidableEq, Repr

/-- The record returned by calculateTotals in InvoicesPage and
PurchasesPage. -/
structure Totals where
  totalAEx : ℚ
  totalB18 : ℚ
  totalTaxA : ℚ
  totalTaxB : ℚ
  subtotal : ℚ
  totalDiscount : ℚ
  totalTax : ℚ
  grandTotal : ℚ
  roundedAmount : ℚ
deriving DecidableEq, Repr

namespace Invoices

/-- The FormItem interface of InvoicesPage. -/
structure FormItem where
  id : String
  product : String
  itemCode : String
  quantity : ℚ
  unitPrice : ℚ
  discount : ℚ
  taxCode : TaxCode
  taxRate : ℚ
deriving DecidableEq, Repr

/-- calculateItemTotal of InvoicesPage: the per-row live preview total. -/
def calculateItemTotal (item : FormItem) : ℚ :=
  let subtotal := item.quantity * item.unitPrice
  let discount := item.discount
  let netAmount := subtotal - discount
  let tax := netAmount * (item.taxRate / 100)
  netAmount + tax

/-- The per-line totalWithTax computed inline in handleSubmit of
InvoicesPage when building the submitted items array. -/
def submitTotalWithTax (item : FormItem) : ℚ :=
  let subtotal := item.quantity * item.unitPrice
  let discount := item.discount
  let netAmount := subtotal - discount
  let taxRate := item.taxRate
  let taxAmount := netAmount * (taxRate / 100)
  netAmount + taxAmount

/-- The body of the forEach loop of calculateTotals in InvoicesPage, as a
step on the accumulator. -/
def step (acc : Acc) (item : FormItem) : Acc :=
  let itemSubtotal := item.quantity * item.unitPrice
  let itemDiscount := item.discount
  let netAmount := itemSubtotal - itemDiscount
  let acc1 : Acc :=
    { acc with
      subtotal := acc.subtotal + itemSubtotal
      totalDiscount := acc.totalDiscount + itemDiscount }
  match item.taxCode with
  | TaxCode.A =>
    { acc1 with
      totalAEx := acc1.totalAEx + netAmount
      totalTaxA := acc1.totalTaxA + netAmount * (item.taxRate / 100) }
  | TaxCode.B =>
    { acc1 with
      totalB18 := acc1.totalB18 + netAmount
      totalTaxB := acc1.totalTaxB + netAmount * (item.taxRate / 100) }
  | TaxCode.None => acc1

/-- calculateTotals of InvoicesPage: accumulates over the items, then
derives totalTax, grandTotal and roundedAmount. -/
def calculateTotals (items : List FormItem) : Totals :=
  let acc := items.foldl step ⟨0, 0, 0, 0, 0, 0⟩
  let totalTax := acc.totalTaxA + acc.totalTaxB
  let grandTotal := acc.subtotal - acc.totalDiscount + totalTax
  let roundedAmount := (mathRound (grandTotal * 100) : ℚ) / 100
  { totalAEx := acc.totalAEx
    totalB18 := acc.totalB18
    totalTaxA := acc.totalTaxA
    totalTaxB := acc.totalTaxB
    subtotal := acc.subtotal
    totalDiscount := acc.totalDiscount
    totalTax := totalTax
    grandTotal := grandTotal
    roundedAmount := roundedAmount }

/-- Net amount of a line: quantity times unit price minus discount. -/
def netAmount (item : FormItem) : ℚ :=
  item.quantity * item.unitPrice - item.discount

/-- Contribution of a line to the totalAEx accumulator. -/
def bracketANet (item : FormItem) : ℚ :=
  match item.taxCode with
  | TaxCode.A => netAmount item
  | _ => 0

/-- Contribution of a line to the totalTaxA accumulator. -/
def bracketATax (item : FormItem) : ℚ :=
  match item.taxCode with
  | TaxCode.A => netAmount item * (item.taxRate / 100)
  | _ => 0

/-- Contribution of a line to the totalB18 accumulator. -/
def bracketBNet (item : FormItem) : ℚ :=
  match item.taxCode with
  | TaxCode.B => netAmount item
  | _ => 0

/-- Contribution of a line to the totalTaxB accumulator. -/
def bracketBTax (item : FormItem) : ℚ :=
  match item.taxCode with
  | TaxCode.B => netAmount item * (item.taxRate / 100)
  | _ => 0

end Invoices

namespace Purchases

/-- The FormItem interface of PurchasesPage (unitCost in place of
unitPrice). -/
structure FormItem where
  id : String
  product : String
  itemCode : String
  quantity : ℚ
  unitCost : ℚ
  discount : ℚ
  taxCode : TaxCode
  taxRate : ℚ
deriving DecidableEq, Repr

/-- calculateItemTotal of PurchasesPage: the per-row live preview total. -/
def calculateItemTotal (item : FormItem) : ℚ :=
  let subtotal := item.quantity * item.unitCost
  let discount := item.discount
  let netAmount := subtotal - discount
  let tax := netAmount * (item.taxRate / 100)
  netAmount + tax

/-- The per-line totalWithTax computed inline in handleSubmit of
PurchasesPage when building the submitted items array. -/
def submitTotalWithTax (item : FormItem) : ℚ :=
  let subtotal := item.quantity * item.unitCost
  let discount := item.discount
  let netAmount := subtotal - discount
  let taxRate := item.taxRate
  let taxAmount := netAmount * (taxRate / 100)
  netAmount + taxAmount

/-- The body of the forEach loop of calculateTotals in PurchasesPage. -/
def step (acc : Acc) (item : FormItem) : Acc :=
  let itemSubtotal := item.quantity * item.unitCost
  let itemDiscount := item.discount
  let netAmount := itemSubtotal - itemDiscount
  let acc1 : Acc :=
    { acc with
      subtotal := acc.subtotal + itemSubtotal
      totalDiscount := acc.totalDiscount + itemDiscount }
  match item.taxCode with
  | TaxCode.A =>
    { acc1 with
      totalAEx := acc1.totalAEx + netAmount
      totalTaxA := acc1.totalTaxA + netAmount * (item.taxRate / 100) }
  | TaxCode.B =>
    { acc1 with
      totalB18 := acc1.totalB18 + netAmount
      totalTaxB := acc1.totalTaxB + netAmount * (item.taxRate / 100) }
  | TaxCode.None => acc1

/-- calculateTotals of PurchasesPage. -/
def calculateTotals (items : List FormItem) : Totals :=
  let acc := items.foldl step ⟨0, 0, 0, 0, 0, 0⟩
  let totalTax := acc.totalTaxA + acc.totalTaxB
  let grandTotal := acc.subtotal - acc.totalDiscount + totalTax
  let roundedAmount := (mathRound (grandTotal * 100) : ℚ) / 100
  { totalAEx := acc.totalAEx
    totalB18 := acc.totalB18
    totalTaxA := acc.totalTaxA
    totalTaxB := acc.totalTaxB
    subtotal := acc.subtotal
    totalDiscount := acc.totalDiscount
    totalTax := totalTax
    grandTotal := grandTotal
    roundedAmount := roundedAmount }

/-- Renaming a purchase form item to an invoice form item (unitCost read as
unitPrice); the two pages duplicate the same code up to this renaming. -/
def toInvoiceItem (item : FormItem) : Invoices.FormItem :=
  ⟨item.id, item.product, item.itemCode, item.quantity, item.unitCost,
    item.discount, item.taxCode, item.taxRate⟩

end Purchases

namespace Quotations

/-- The FormItem interface of QuotationsPage (no taxCode field, a single
flat taxRate per line). -/
structure FormItem where
  id : String
  product : String
  itemCode : String
  quantity : ℚ
  unitPrice : ℚ
  discount : ℚ
  taxRate : ℚ
deriving DecidableEq, Repr

/-- The record returned by calculateTotals in QuotationsPage. -/
structure Totals where
  subtotal : ℚ
  totalTax : ℚ
  grandTotal : ℚ
deriving DecidableEq, Repr

/-- calculateItemTotal of QuotationsPage: the per-row live preview total. -/
def calculateItemTotal (item : FormItem) : ℚ :=
  let subtotal := item.quantity * item.unitPrice
  let discount := item.discount
  let tax := (subtotal - discount) * (item.taxRate / 100)
  subtotal - discount + tax

/-- The per-line total computed inline in handleSubmit of QuotationsPage
when building the submitted items array. -/
def submitLineTotal (item : FormItem) : ℚ :=
  let subtotal := item.quantity * item.unitPrice
  let totalTax := (subtotal - item.discount) * (item.taxRate / 100)
  subtotal - item.discount + totalTax

/-- calculateTotals of QuotationsPage: accumulates subtotal and totalTax,
then sets grandTotal to their sum (the discount is subtracted inside the
tax term only, not from the grand total). -/
def calculateTotals (items : List FormItem) : Totals :=
  let acc := items.foldl
    (fun (acc : ℚ × ℚ) item =>
      let itemSubtotal := item.quantity * item.unitPrice
      (acc.1 + itemSubtotal,
        acc.2 + (itemSubtotal - item.discount) * (item.taxRate / 100)))
    (0, 0)
  { subtotal := acc.1, totalTax := acc.2, grandTotal := acc.1 + acc.2 }

end Quotations

/-- Modelled from the spec: computeLineTotal, the specified line-total
operation that fails with InvalidLineItem when the net amount is negative
and otherwise returns the total with tax. No such validating operation
exists in the source; it is stated here to compare the specified failure
behaviour with the code. -/
def computeLineTotalSpec (item : Invoices.FormItem) : Except DocError ℚ :=
  let netAmount := item.quantity * item.unitPrice - item.discount
  if netAmount < 0 then Except.error DocError.InvalidLineItem
  else Except.ok (netAmount + netAmount * (item.taxRate / 100))

namespace Invoices

/-- The fields of a Product used by updateItem of InvoicesPage. -/
structure Product where
  productId : String
  sku : String
  sellingPrice : ℚ
  averageCost : ℚ
deriving DecidableEq, Repr

/-- One field assignment passed to updateItem of InvoicesPage: a key of
FormItem together with the value of the matching type. -/
inductive FieldUpdate where
  | id (v : String)
  | product (v : String)
  | itemCode (v : String)
  | quantity (v : ℚ)
  | unitPrice (v : ℚ)
  | discount (v : ℚ)
  | taxCode (v : TaxCode)
  | taxRate (v : ℚ)
deriving DecidableEq, Repr

/-- The spread assignment of updateItem: the item with the one named field
replaced by the value. -/
def assign (item : FormItem) (u : FieldUpdate) : FormItem :=
  match u with
  | FieldUpdate.id v => { item with id := v }
  | FieldUpdate.product v => { item with product := v }
  | FieldUpdate.itemCode v => { item with itemCode := v }
  | FieldUpdate.quantity v => { item with quantity := v }
  | FieldUpdate.unitPrice v => { item with unitPrice := v }
  | FieldUpdate.discount v => { item with discount := v }
  | FieldUpdate.taxCode v => { item with taxCode := v }
  | FieldUpdate.taxRate v => { item with taxRate := v }

/-- The body of the map inside updateItem of InvoicesPage, applied to one
item: the field assignment, then the product auto-fill branch, then the
tax-rate re-derivation branch when the tax code changed. -/
def updateOne (products : List Product) (targetId : String)
    (u : FieldUpdate) (item : FormItem) : FormItem :=
  if item.id = targetId then
    let updated := assign item u
    let updated :=
      match u with
      | FieldUpdate.product v =>
        if v ≠ "" then
          match products.find? (fun p => p.productId == v) with
          | some product =>
            { updated with
              unitPrice :=
                if product.sellingPrice ≠ 0 then product.sellingPrice
                else product.averageCost
              itemCode := product.sku }
          | none => updated
        else updated
      | _ => updated
    match u with
    | FieldUpdate.taxCode v =>
      (match TAX_CODES.find? (fun t => t.value == v) with
       | some tax => { updated with taxRate := tax.rate }
       | none => updated)
    | _ => updated
  else item

/-- updateItem of InvoicesPage: maps updateOne over the form items. -/
def updateItem (products : List Product) (targetId : String)
    (u : FieldUpdate) (items : List FormItem) : List FormItem :=
  items.map (updateOne products targetId u)

/-- The initial formItems state of InvoicesPage: one blank line with tax
code A and tax rate 0. -/
def initialFormItems : List FormItem :=
  [⟨"1", "", "", 1, 0, 0, TaxCode.A, 0⟩]

/-- addItem of InvoicesPage: appends a blank line with tax code A and tax
rate 0; the fresh id (Date.now in the source) is a parameter. -/
def addItem (newId : String) (items : List FormItem) : List FormItem :=
  items ++ [⟨newId, "", "", 1, 0, 0, TaxCode.A, 0⟩]

/-- The taxRate-matches-taxCode invariant: code A forces rate 0 and code B
forces rate 18. -/
def consistent (item : FormItem) : Prop :=
  (item.taxCode = TaxCode.A → item.taxRate = 0) ∧
  (item.taxCode = TaxCode.B → item.taxRate = 18)

instance (item : FormItem) : Decidable (consistent item) := by
  unfold consistent
  infer_instance

/-- Form states reachable from the initial state through addItem and
through updateItem on any field other than a direct taxRate write. -/
inductive Reachable : List FormItem → Prop where
  | init : Reachable initialFormItems
  | add (newId : String) {s : List FormItem} :
      Reachable s → Reachable (addItem newId s)
  | update (products : List Product) (targetId : String) (u : FieldUpdate)
      {s : List FormItem} :
      (∀ v : ℚ, u ≠ FieldUpdate.taxRate v) →
      Reachable s → Reachable (updateItem products targetId u s)

end Invoices

namespace Permissions

/-- The UserRole union type of permissions.ts. -/
inductive UserRole where
  | admin
  | stock_manager
  | sales
  | viewer
deriving DecidableEq, Repr

/-- The rolePermissions table of permissions.ts; permissions are the string
literals of the Permission union type. -/
def rolePermissions (role : UserRole) : List String :=
  match role with
  | UserRole.admin =>
    ["products:read", "products:create", "products:update", "products:delete",
     "invoices:read", "invoices:create", "invoices:update", "invoices:delete",
     "purchases:read", "purchases:create", "purchases:update", "purchases:delete",
     "quotations:read", "quotations:create", "quotations:update", "quotations:delete",
     "clients:read", "clients:create", "clients:update", "clients:delete",
     "suppliers:read", "suppliers:create", "suppliers:update", "suppliers:delete",
     "categories:read", "categories:create", "categories:update", "categories:delete",
     "stock:read", "stock:update",
     "users:read", "users:create", "users:update", "users:delete",
     "reports:read", "reports:export",
     "dashboard:read"]
  | UserRole.stock_manager =>
    ["products:read", "products:create", "products:update", "products:delete",
     "stock:read", "stock:update",
     "categories:read", "categories:create", "categories:update", "categories:delete",
     "dashboard:read"]
  | UserRole.sales =>
    ["products:read",
     "invoices:read", "invoices:create", "invoices:update",
     "purchases:read",
     "quotations:read", "quotations:create", "quotations:update",
     "clients:read", "clients:create", "clients:update",
     "suppliers:read",
     "categories:read",
     "stock:read",
     "reports:read", "reports:export",
     "dashboard:read"]
  | UserRole.viewer =>
    ["products:read",
     "invoices:read",
     "purchases:read",
     "quotations:read",
     "clients:read",
     "suppliers:read",
     "categories:read",
     "stock:read",
     "users:read",
     "reports:read",
     "dashboard:read"]

/-- hasPermission of permissions.ts: false for an undefined role, else a
membership test in the role row of the table. -/
def hasPermission (role : Option UserRole) (permission : String) : Bool :=
  match role with
  | Option.none => false
  | Option.some r => (rolePermissions r).contains permission

/-- hasAnyPermission of permissions.ts: false for an undefined role, else
true when some listed permission is in the role row of the table. -/
def hasAnyPermission (role : Option UserRole) (permissions : List String) : Bool :=
  match role with
  | Option.none => false
  | Option.some r =>
    permissions.any (fun permission => (rolePermissions r).contains permission)

end Permissions

namespace Invoices

/-- Running the accumulation loop adds, to every accumulator field, the sum
of the per-line contributions. -/
theorem foldl_step_eq (items : List FormItem) (a : Acc) :
    items.foldl step a =
      ⟨a.totalAEx + (items.map bracketANet).sum,
       a.totalB18 + (items.map bracketBNet).sum,
       a.totalTaxA + (items.map bracketATax).sum,
       a.totalTaxB + (items.map bracketBTax).sum,
       a.subtotal + (items.map fun it => it.quantity * it.unitPrice).sum,
       a.totalDiscount + (items.map fun it => it.discount).sum⟩ := by
  induction items generalizing a with
  | nil => simp
  | cons hd tl ih =>
    simp only [List.foldl_cons, List.map_cons, List.sum_cons, ih]
    cases h : hd.taxCode <;>
      simp only [step, bracketANet, bracketBNet, bracketATax, bracketBTax,
        netAmount, h, Acc.mk.injEq] <;>
      refine ⟨by ring, by ring, by ring, by ring, by ring, by ring⟩

theorem calculateTotals_totalAEx (items : List FormItem) :
    (calculateTotals items).totalAEx = (items.map bracketANet).sum := by
  simp [calculateTotals, foldl_step_eq]

theorem calculateTotals_totalB18 (items : List FormItem) :
    (calculateTotals items).totalB18 = (items.map bracketBNet).sum := by
  simp [calculateTotals, foldl_step_eq]

theorem calculateTotals_totalTaxA (items : List FormItem) :
    (calculateTotals items).totalTaxA = (items.map bracketATax).sum := by
  simp [calculateTotals, foldl_step_eq]

theorem calculateTotals_totalTaxB (items : List FormItem) :
    (calculateTotals items).totalTaxB = (items.map bracketBTax).sum := by
  simp [calculateTotals, foldl_step_eq]

theorem calculateTotals_subtotal (items : List FormItem) :
    (calculateTotals items).subtotal =
      (items.map fun it => it.quantity * it.unitPrice).sum := by
  simp [calculateTotals, foldl_step_eq]

theorem calculateTotals_totalDiscount (items : List FormItem) :
    (calculateTotals items).totalDiscount =
      (items.map fun it => it.discount).sum := by
  simp [calculateTotals, foldl_step_eq]

theorem calculateTotals_totalTax (items : List FormItem) :
    (calculateTotals items).totalTax =
      (calculateTotals items).totalTaxA + (calculateTotals items).totalTaxB := rfl

theorem calculateTotals_grandTotal (items : List FormItem) :
    (calculateTotals items).grandTotal =
      (calculateTotals items).subtotal - (calculateTotals items).totalDiscount +
        (calculateTotals items).totalTax := rfl

theorem calculateTotals_roundedAmount (items : List FormItem) :
    (calculateTotals items).roundedAmount =
      roundHalfUpTo2 (calculateTotals items).grandTotal := rfl

end Invoices

namespace Purchases

/-- The purchase accumulation step is the invoice one after the field
renaming. -/
theorem step_eq (a : Acc) (item : FormItem) :
    step a item = Invoices.step a (toInvoiceItem item) := by
  rcases item with ⟨i, p, c, q, u, d, tc, tr⟩
  cases tc <;> rfl

theorem foldl_bridge (items : List FormItem) (a : Acc) :
    items.foldl step a =
      (items.map toInvoiceItem).foldl Invoices.step a := by
  induction items generalizing a with
  | nil => rfl
  | cons hd tl ih => simp [List.foldl_cons, step_eq, ih]

/-- calculateTotals of PurchasesPage is the invoice computation applied to
the renamed items: the two pages duplicate identical logic. -/
theorem calculateTotals_eq (items : List FormItem) :
    calculateTotals items =
      Invoices.calculateTotals (items.map toInvoiceItem) := by
  simp [calculateTotals, Invoices.calculateTotals, foldl_bridge]

end Purchases

/-- Half-up rounding to two decimals agrees with half-away-from-zero on the
nonnegative rationals. -/
theorem roundHalfUpTo2_eq_away {q : ℚ} (h : 0 ≤ q) :
    roundHalfUpTo2 q = roundHalfAwayFromZeroTo2 q := by
  simp [roundHalfUpTo2, roundHalfAwayFromZeroTo2, mathRound, h]

/-- C1: for every list of line items, the invoice and purchase
calculateTotals satisfy the document identity: subtotal is the sum of
quantity times unit amount, totalDiscount is the sum of line discounts,
totalTax is taxBracketA plus taxBracketB, and grandTotal equals
subtotal minus totalDiscount plus totalTax, exactly. -/
theorem grandTotal_identity (items : List Invoices.FormItem)
    (pitems : List Purchases.FormItem) :
    (Invoices.calculateTotals items).subtotal =
      (items.map fun it => it.quantity * it.unitPrice).sum ∧
    (Invoices.calculateTotals items).totalDiscount =
      (items.map fun it => it.discount).sum ∧
    (Invoices.calculateTotals items).totalTax =
      (Invoices.calculateTotals items).totalTaxA +
        (Invoices.calculateTotals items).totalTaxB ∧
    (Invoices.calculateTotals items).grandTotal =
      (Invoices.calculateTotals items).subtotal -
        (Invoices.calculateTotals items).totalDiscount +
        (Invoices.calculateTotals items).totalTax ∧
    (Purchases.calculateTotals pitems).subtotal =
      (pitems.map fun it => it.quantity * it.unitCost).sum ∧
    (Purchases.calculateTotals pitems).totalDiscount =
      (pitems.map fun it => it.discount).sum ∧
    (Purchases.calculateTotals pitems).totalTax =
      (Purchases.calculateTotals pitems).totalTaxA +
        (Purchases.calculateTotals pitems).totalTaxB ∧
    (Purchases.calculateTotals pitems).grandTotal =
      (Purchases.calculateTotals pitems).subtotal -
        (Purchases.calculateTotals pitems).totalDiscount +
        (Purchases.calculateTotals pitems).totalTax := by
  refine ⟨Invoices.calculateTotals_subtotal items,
    Invoices.calculateTotals_totalDiscount items,
    Invoices.calculateTotals_totalTax items,
    Invoices.calculateTotals_grandTotal items, ?_, ?_, ?_, ?_⟩ <;>
    rw [Purchases.calculateTotals_eq]
  · rw [Invoices.calculateTotals_subtotal, List.map_map]
    exact rfl
  · rw [Invoices.calculateTotals_totalDiscount, List.map_map]
    exact rfl
  · exact Invoices.calculateTotals_totalTax _
  · exact Invoices.calculateTotals_grandTotal _

/-- C2 (amended): roundedAmount equals grandTotal rounded to two decimals
with halves rounded toward positive infinity (the Math.round semantics);
for nonnegative grand totals this coincides with round-half-away-from-zero,
but not at negative exact half-cent boundaries. -/
theorem roundedAmount_policy (items : List Invoices.FormItem)
    (pitems : List Purchases.FormItem) :
    (Invoices.calculateTotals items).roundedAmount =
      roundHalfUpTo2 (Invoices.calculateTotals items).grandTotal ∧
    (0 ≤ (Invoices.calculateTotals items).grandTotal →
      (Invoices.calculateTotals items).roundedAmount =
        roundHalfAwayFromZeroTo2 (Invoices.calculateTotals items).grandTotal) ∧
    (Purchases.calculateTotals pitems).roundedAmount =
      roundHalfUpTo2 (Purchases.calculateTotals pitems).grandTotal ∧
    (0 ≤ (Purchases.calculateTotals pitems).grandTotal →
      (Purchases.calculateTotals pitems).roundedAmount =
        roundHalfAwayFromZeroTo2 (Purchases.calculateTotals pitems).grandTotal) := by
  refine ⟨rfl, fun h => ?_, rfl, fun h => ?_⟩
  · exact (Invoices.calculateTotals_roundedAmount items).trans
      (roundHalfUpTo2_eq_away h)
  · rw [Purchases.calculateTotals_eq] at h ⊢
    exact (Invoices.calculateTotals_roundedAmount _).trans
      (roundHalfUpTo2_eq_away h)

/-- Witness for C2: on the concrete invoice and purchase line with quantity
2, unit amount 1000, no discount, tax code B at 18 percent, the grand total
2360 is nonnegative and the rounded amount matches the away-from-zero
rounding. -/
theorem roundedAmount_policy_witness :
    0 ≤ (Invoices.calculateTotals
        [⟨"1", "", "", 2, 1000, 0, TaxCode.B, 18⟩]).grandTotal ∧
    (Invoices.calculateTotals
        [⟨"1", "", "", 2, 1000, 0, TaxCode.B, 18⟩]).roundedAmount =
      roundHalfAwayFromZeroTo2 (Invoices.calculateTotals
        [⟨"1", "", "", 2, 1000, 0, TaxCode.B, 18⟩]).grandTotal ∧
    0 ≤ (Purchases.calculateTotals
        [⟨"1", "", "", 2, 1000, 0, TaxCode.B, 18⟩]).grandTotal ∧
    (Purchases.calculateTotals
        [⟨"1", "", "", 2, 1000, 0, TaxCode.B, 18⟩]).roundedAmount =
      roundHalfAwayFromZeroTo2 (Purchases.calculateTotals
        [⟨"1", "", "", 2, 1000, 0, TaxCode.B, 18⟩]).grandTotal :=
  ⟨by norm_num [Invoices.calculateTotals, Invoices.step],
   (roundedAmount_policy [⟨"1", "", "", 2, 1000, 0, TaxCode.B, 18⟩]
       [⟨"1", "", "", 2, 1000, 0, TaxCode.B, 18⟩]).2.1
     (by norm_num [Invoices.calculateTotals, Invoices.step]),
   by norm_num [Purchases.calculateTotals, Purchases.step],
   (roundedAmount_policy [⟨"1", "", "", 2, 1000, 0, TaxCode.B, 18⟩]
       [⟨"1", "", "", 2, 1000, 0, TaxCode.B, 18⟩]).2.2.2
     (by norm_num [Purchases.calculateTotals, Purchases.step])⟩

/-- Counterexample for C2 as stated: the single invoice line with quantity
1, unit price 0, discount 0.125, tax code A gives grandTotal -0.125; the
code rounds it to -0.12 (half toward positive infinity) while
round-half-away-from-zero gives -0.13. -/
theorem roundedAmount_negative_half_counterexample :
    (Invoices.calculateTotals
        [⟨"1", "", "", 1, 0, 1/8, TaxCode.A, 0⟩]).grandTotal = -(1/8) ∧
    (Invoices.calculateTotals
        [⟨"1", "", "", 1, 0, 1/8, TaxCode.A, 0⟩]).roundedAmount = -(12/100) ∧
    roundHalfAwayFromZeroTo2 (-(1/8)) = -(13/100) ∧
    (Invoices.calculateTotals
        [⟨"1", "", "", 1, 0, 1/8, TaxCode.A, 0⟩]).roundedAmount ≠
      roundHalfAwayFromZeroTo2 (Invoices.calculateTotals
        [⟨"1", "", "", 1, 0, 1/8, TaxCode.A, 0⟩]).grandTotal := by
  refine ⟨?_, ?_, ?_, ?_⟩ <;>
    norm_num [Invoices.calculateTotals, Invoices.step, mathRound,
      roundHalfAwayFromZeroTo2]

/-- C3 (amended): the line-total computation performs no validation and
never signals an error; on a line whose discount exceeds quantity times
unit amount (with a nonnegative tax rate) it simply returns a negative
number. -/
theorem itemTotal_negative_net (item : Invoices.FormItem)
    (pitem : Purchases.FormItem)
    (h1 : 0 ≤ item.taxRate)
    (h2 : item.quantity * item.unitPrice < item.discount)
    (h3 : 0 ≤ pitem.taxRate)
    (h4 : pitem.quantity * pitem.unitCost < pitem.discount) :
    Invoices.calculateItemTotal item < 0 ∧
    Purchases.calculateItemTotal pitem < 0 := by
  constructor
  · have hnet : item.quantity * item.unitPrice - item.discount < 0 := by linarith
    have htax : (item.quantity * item.unitPrice - item.discount) *
        (item.taxRate / 100) ≤ 0 :=
      mul_nonpos_iff.mpr (Or.inr ⟨hnet.le, by positivity⟩)
    show item.quantity * item.unitPrice - item.discount +
        (item.quantity * item.unitPrice - item.discount) *
          (item.taxRate / 100) < 0
    linarith
  · have hnet : pitem.quantity * pitem.unitCost - pitem.discount < 0 := by linarith
    have htax : (pitem.quantity * pitem.unitCost - pitem.discount) *
        (pitem.taxRate / 100) ≤ 0 :=
      mul_nonpos_iff.mpr (Or.inr ⟨hnet.le, by positivity⟩)
    show pitem.quantity * pitem.unitCost - pitem.discount +
        (pitem.quantity * pitem.unitCost - pitem.discount) *
          (pitem.taxRate / 100) < 0
    linarith

/-- Witness for C3 (amended): the line with quantity 1, unit amount 100,
discount 150 has a negative total in both flows. -/
theorem itemTotal_negative_net_witness :
    0 ≤ ((⟨"1", "", "", 1, 100, 150, TaxCode.A, 0⟩ :
        Invoices.FormItem)).taxRate ∧
    ((⟨"1", "", "", 1, 100, 150, TaxCode.A, 0⟩ :
        Invoices.FormItem)).quantity *
      ((⟨"1", "", "", 1, 100, 150, TaxCode.A, 0⟩ :
        Invoices.FormItem)).unitPrice <
      ((⟨"1", "", "", 1, 100, 150, TaxCode.A, 0⟩ :
        Invoices.FormItem)).discount ∧
    Invoices.calculateItemTotal ⟨"1", "", "", 1, 100, 150, TaxCode.A, 0⟩ < 0 ∧
    Purchases.calculateItemTotal ⟨"1", "", "", 1, 100, 150, TaxCode.A, 0⟩ < 0 :=
  ⟨by norm_num, by norm_num,
    itemTotal_negative_net ⟨"1", "", "", 1, 100, 150, TaxCode.A, 0⟩
      ⟨"1", "", "", 1, 100, 150, TaxCode.A, 0⟩
      (by norm_num) (by norm_num) (by norm_num) (by norm_num)⟩

/-- Counterexample for C3 as stated: on the line with quantity 1, unit
amount 100, discount 150 the code returns the value -50 rather than
failing; the specified computeLineTotal would fail with InvalidLineItem
there. -/
theorem invalidLineItem_never_raised_counterexample :
    Invoices.calculateItemTotal ⟨"1", "", "", 1, 100, 150, TaxCode.A, 0⟩ =
      -50 ∧
    computeLineTotalSpec ⟨"1", "", "", 1, 100, 150, TaxCode.A, 0⟩ =
      Except.error DocError.InvalidLineItem := by
  constructor
  · norm_num [Invoices.calculateItemTotal]
  · norm_num [computeLineTotalSpec]

/-- C4 (code bug evaluation): on the quotation line with quantity 1, unit
price 100, discount 50, tax rate 18, the page computes subtotal 100, tax 9
and grand total 109, while the same page's own per-line submitted total is
59 = 100 - 50 + 9; the quotation grand total does not subtract the
discount, so it does not share the core summation logic. -/
theorem quotation_grandTotal_drops_discount :
    (Quotations.calculateTotals [⟨"1", "p", "", 1, 100, 50, 18⟩]).subtotal =
      100 ∧
    (Quotations.calculateTotals [⟨"1", "p", "", 1, 100, 50, 18⟩]).totalTax =
      9 ∧
    (Quotations.calculateTotals [⟨"1", "p", "", 1, 100, 50, 18⟩]).grandTotal =
      109 ∧
    Quotations.submitLineTotal ⟨"1", "p", "", 1, 100, 50, 18⟩ = 59 ∧
    (Quotations.calculateTotals [⟨"1", "p", "", 1, 100, 50, 18⟩]).grandTotal ≠
      (Quotations.calculateTotals [⟨"1", "p", "", 1, 100, 50, 18⟩]).subtotal -
        50 +
        (Quotations.calculateTotals [⟨"1", "p", "", 1, 100, 50, 18⟩]).totalTax := by
  refine ⟨?_, ?_, ?_, ?_, ?_⟩ <;>
    norm_num [Quotations.calculateTotals, Quotations.submitLineTotal]

/-- C5: in each creation flow the per-row preview total equals the per-line
total computed at submission time, and both equal net amount plus net
amount times the tax rate over 100. -/
theorem preview_equals_submission (item : Invoices.FormItem)
    (pitem : Purchases.FormItem) (qitem : Quotations.FormItem) :
    Invoices.calculateItemTotal item = Invoices.submitTotalWithTax item ∧
    Invoices.calculateItemTotal item =
      (item.quantity * item.unitPrice - item.discount) +
        (item.quantity * item.unitPrice - item.discount) *
          (item.taxRate / 100) ∧
    Purchases.calculateItemTotal pitem = Purchases.submitTotalWithTax pitem ∧
    Purchases.calculateItemTotal pitem =
      (pitem.quantity * pitem.unitCost - pitem.discount) +
        (pitem.quantity * pitem.unitCost - pitem.discount) *
          (pitem.taxRate / 100) ∧
    Quotations.calculateItemTotal qitem = Quotations.submitLineTotal qitem ∧
    Quotations.calculateItemTotal qitem =
      (qitem.quantity * qitem.unitPrice - qitem.discount) +
        (qitem.quantity * qitem.unitPrice - qitem.discount) *
          (qitem.taxRate / 100) := by
  refine ⟨rfl, ?_, rfl, ?_, rfl, ?_⟩ <;>
    simp only [Invoices.calculateItemTotal, Purchases.calculateItemTotal,
      Quotations.calculateItemTotal]

/-- C8: on the empty line list the invoice totals computation returns with
every output field equal to zero and does not fail. -/
theorem emptyItems_totals_zero :
    Invoices.calculateTotals [] = ⟨0, 0, 0, 0, 0, 0, 0, 0, 0⟩ := by
  norm_num [Invoices.calculateTotals, mathRound, Totals.mk.injEq]

/-- C6: inserting a line with tax code A and derived tax rate 0 anywhere in
an invoice item list adds its net amount to the bracket-A total, computes a
zero tax amount, and leaves the bracket-A tax total and both bracket-B
aggregates unchanged. -/
theorem taxCodeA_contribution (pre post : List Invoices.FormItem)
    (it : Invoices.FormItem) (hA : it.taxCode = TaxCode.A)
    (hr : it.taxRate = 0) :
    (it.quantity * it.unitPrice - it.discount) * (it.taxRate / 100) = 0 ∧
    (Invoices.calculateTotals (pre ++ it :: post)).totalAEx =
      (Invoices.calculateTotals (pre ++ post)).totalAEx +
        (it.quantity * it.unitPrice - it.discount) ∧
    (Invoices.calculateTotals (pre ++ it :: post)).totalTaxA =
      (Invoices.calculateTotals (pre ++ post)).totalTaxA ∧
    (Invoices.calculateTotals (pre ++ it :: post)).totalB18 =
      (Invoices.calculateTotals (pre ++ post)).totalB18 ∧
    (Invoices.calculateTotals (pre ++ it :: post)).totalTaxB =
      (Invoices.calculateTotals (pre ++ post)).totalTaxB := by
  refine ⟨by rw [hr]; ring, ?_, ?_, ?_, ?_⟩ <;>
    simp [Invoices.calculateTotals_totalAEx, Invoices.calculateTotals_totalTaxA,
      Invoices.calculateTotals_totalB18, Invoices.calculateTotals_totalTaxB,
      List.map_append, List.sum_append, Invoices.bracketANet,
      Invoices.bracketATax, Invoices.bracketBNet, Invoices.bracketBTax,
      Invoices.netAmount, hA, hr]
  ring

/-- Witness for C6: the line with quantity 1, unit price 500, discount 100,
tax code A adds net amount 400 to the bracket-A total of the empty
document. -/
theorem taxCodeA_contribution_witness :
    ((⟨"2", "", "", 1, 500, 100, TaxCode.A, 0⟩ :
        Invoices.FormItem)).taxCode = TaxCode.A ∧
    ((⟨"2", "", "", 1, 500, 100, TaxCode.A, 0⟩ :
        Invoices.FormItem)).taxRate = 0 ∧
    (Invoices.calculateTotals
        [⟨"2", "", "", 1, 500, 100, TaxCode.A, 0⟩]).totalAEx =
      (Invoices.calculateTotals ([] : List Invoices.FormItem)).totalAEx +
        ((1 : ℚ) * 500 - 100) :=
  ⟨rfl, rfl,
    (taxCodeA_contribution [] [] ⟨"2", "", "", 1, 500, 100, TaxCode.A, 0⟩
        rfl rfl).2.1⟩

/-- C7: inserting a line whose tax code is None anywhere in an invoice item
list adds to the subtotal, the total discount and the grand total, but
leaves all four bracket aggregates unchanged. -/
theorem taxCodeNone_contribution (pre post : List Invoices.FormItem)
    (it : Invoices.FormItem) (hN : it.taxCode = TaxCode.None) :
    (Invoices.calculateTotals (pre ++ it :: post)).subtotal =
      (Invoices.calculateTotals (pre ++ post)).subtotal +
        it.quantity * it.unitPrice ∧
    (Invoices.calculateTotals (pre ++ it :: post)).totalDiscount =
      (Invoices.calculateTotals (pre ++ post)).totalDiscount + it.discount ∧
    (Invoices.calculateTotals (pre ++ it :: post)).grandTotal =
      (Invoices.calculateTotals (pre ++ post)).grandTotal +
        (it.quantity * it.unitPrice - it.discount) ∧
    (Invoices.calculateTotals (pre ++ it :: post)).totalAEx =
      (Invoices.calculateTotals (pre ++ post)).totalAEx ∧
    (Invoices.calculateTotals (pre ++ it :: post)).totalB18 =
      (Invoices.calculateTotals (pre ++ post)).totalB18 ∧
    (Invoices.calculateTotals (pre ++ it :: post)).totalTaxA =
      (Invoices.calculateTotals (pre ++ post)).totalTaxA ∧
    (Invoices.calculateTotals (pre ++ it :: post)).totalTaxB =
      (Invoices.calculateTotals (pre ++ post)).totalTaxB := by
  refine ⟨?_, ?_, ?_, ?_, ?_, ?_, ?_⟩ <;>
    simp [Invoices.calculateTotals_grandTotal, Invoices.calculateTotals_totalTax,
      Invoices.calculateTotals_subtotal, Invoices.calculateTotals_totalDiscount,
      Invoices.calculateTotals_totalAEx, Invoices.calculateTotals_totalTaxA,
      Invoices.calculateTotals_totalB18, Invoices.calculateTotals_totalTaxB,
      List.map_append, List.sum_append, Invoices.bracketANet,
      Invoices.bracketATax, Invoices.bracketBNet, Invoices.bracketBTax,
      Invoices.netAmount, hN] <;> ring

/-- Witness for C7: the None line with quantity 3, unit price 10, discount
4 moves the subtotal, discount and grand total of the empty document but no
bracket aggregate. -/
theorem taxCodeNone_contribution_witness :
    ((⟨"1", "", "", 3, 10, 4, TaxCode.None, 0⟩ :
        Invoices.FormItem)).taxCode = TaxCode.None ∧
    (Invoices.calculateTotals
        [⟨"1", "", "", 3, 10, 4, TaxCode.None, 0⟩]).subtotal =
      (Invoices.calculateTotals ([] : List Invoices.FormItem)).subtotal +
        (3 : ℚ) * 10 ∧
    (Invoices.calculateTotals
        [⟨"1", "", "", 3, 10, 4, TaxCode.None, 0⟩]).grandTotal =
      (Invoices.calculateTotals ([] : List Invoices.FormItem)).grandTotal +
        ((3 : ℚ) * 10 - 4) ∧
    (Invoices.calculateTotals
        [⟨"1", "", "", 3, 10, 4, TaxCode.None, 0⟩]).totalAEx =
      (Invoices.calculateTotals ([] : List Invoices.FormItem)).totalAEx :=
  ⟨rfl,
    (taxCodeNone_contribution [] [] ⟨"1", "", "", 3, 10, 4, TaxCode.None, 0⟩
        rfl).1,
    (taxCodeNone_contribution [] [] ⟨"1", "", "", 3, 10, 4, TaxCode.None, 0⟩
        rfl).2.2.1,
    (taxCodeNone_contribution [] [] ⟨"1", "", "", 3, 10, 4, TaxCode.None, 0⟩
        rfl).2.2.2.1⟩

/-- updateOne keeps the taxRate-matches-taxCode invariant for every update
other than a direct taxRate write: assignments to other fields leave the
pair untouched, and a taxCode assignment re-derives the rate from the
TAX_CODES table (or, for None, leaves the rate alone while both
implications become vacuous). -/
theorem consistent_updateOne (products : List Invoices.Product)
    (targetId : String) (u : Invoices.FieldUpdate)
    (hu : ∀ v : ℚ, u ≠ Invoices.FieldUpdate.taxRate v)
    (item : Invoices.FormItem) (hc : Invoices.consistent item) :
    Invoices.consistent (Invoices.updateOne products targetId u item) := by
  unfold Invoices.updateOne
  by_cases hid : item.id = targetId
  · simp only [hid, if_true]
    cases u with
    | taxRate v => exact absurd rfl (hu v)
    | taxCode v =>
      cases v with
      | A => exact ⟨fun _ => rfl, fun h => nomatch h⟩
      | B => exact ⟨fun h => (nomatch h), fun _ => rfl⟩
      | None => exact ⟨fun h => (nomatch h), fun h => nomatch h⟩
    | product v =>
      simp only [Invoices.assign]
      split
      · cases hfind : products.find? fun p => p.productId == v with
        | some product => simp only [hfind]; exact hc
        | none => simp only [hfind]; exact hc
      · exact hc
    | id v => exact hc
    | itemCode v => exact hc
    | quantity v => exact hc
    | unitPrice v => exact hc
    | discount v => exact hc
  · simp only [hid, if_false]
    exact hc

/-- C9 (amended): every form state reachable through the initial state,
addItem, and updateItem on any field other than a direct taxRate write
keeps taxRate consistent with taxCode (A forces 0, B forces 18). -/
theorem reachable_items_consistent {s : List Invoices.FormItem}
    (h : Invoices.Reachable s) :
    ∀ item ∈ s, Invoices.consistent item := by
  induction h with
  | init =>
    intro item hmem
    simp only [Invoices.initialFormItems, List.mem_singleton] at hmem
    subst hmem
    exact ⟨fun _ => rfl, fun h2 => by cases h2⟩
  | add newId _ ih =>
    intro item hmem
    rcases List.mem_append.mp hmem with h1 | h1
    · exact ih item h1
    · simp only [List.mem_singleton] at h1
      subst h1
      exact ⟨fun _ => rfl, fun h2 => by cases h2⟩
  | update products targetId u hu _ ih =>
    intro item hmem
    rcases List.mem_map.mp hmem with ⟨x, hx, rfl⟩
    exact consistent_updateOne products targetId u hu x (ih x hx)

/-- Witness for C9 (amended): the initial form state is reachable and its
single item satisfies the invariant. -/
theorem reachable_items_consistent_witness :
    Invoices.consistent ⟨"1", "", "", 1, 0, 0, TaxCode.A, 0⟩ :=
  reachable_items_consistent Invoices.Reachable.init
    ⟨"1", "", "", 1, 0, 0, TaxCode.A, 0⟩
    (by simp [Invoices.initialFormItems])

/-- Counterexample for C9 as stated: updateItem does accept the taxRate
field, and writing taxRate 5 on the initial item leaves taxCode A with
taxRate 5, breaking the invariant. -/
theorem updateItem_taxRate_counterexample :
    Invoices.updateItem [] "1" (Invoices.FieldUpdate.taxRate 5)
        Invoices.initialFormItems =
      [⟨"1", "", "", 1, 0, 0, TaxCode.A, 5⟩] ∧
    ¬ Invoices.consistent ⟨"1", "", "", 1, 0, 0, TaxCode.A, 5⟩ := by
  constructor
  · rfl
  · intro h
    exact absurd (h.1 rfl) (by norm_num)

/-- C10: a caller with no authenticated role is granted nothing: for every
permission and permission list, hasPermission and hasAnyPermission return
false on an undefined role. -/
theorem undefined_role_has_no_permissions (p : String) (ps : List String) :
    Permissions.hasPermission Option.none p = false ∧
    Permissions.hasAnyPermission Option.none ps = false :=
  ⟨rfl, rfl⟩

end StockFrontend
